import Mathlib

/-!
Shallow embedding of the preview/session subsystem of `apps/web/src/server.ts`
(Mofix repository), together with theorems settling the specification claims
about it.  Stateful code is modelled by explicit state passing; OS effects
(binding ports, spawning and killing processes, removing directories, HTTP
responses of the probed backend) are modelled by oracles and explicit action
traces.  All definitions are executable.
-/

namespace Mofix

/-! ## Data model (server.ts, type declarations and stores) -/

/-- Translation of `type PreviewSession` (server.ts): id, bound port, temp
directory, child pid, creation timestamp. -/
structure PreviewSession where
  id : String
  port : Nat
  tempDir : String
  childPid : Int
  startedAt : Nat
deriving Repr, DecidableEq

/-- Translation of `type PlanSession` (server.ts): the fields the cleanup
sweep reads (`tempDir`, `timestamp`). -/
structure PlanSession where
  projectRoot : String
  tempDir : String
  timestamp : Nat
deriving Repr, DecidableEq

/-- Translation of the `migrationResults` entry type
`\x7b zipPath: string; timestamp: number \x7d` (server.ts). -/
structure MigrationResult where
  zipPath : String
  timestamp : Nat
deriving Repr, DecidableEq

/-- The in-memory session registry `previewSessions : Map<string, PreviewSession>`
modelled as an association list; `Map.get` is `List.lookup`, `Map.delete id`
removes the entry whose key equals `id`. -/
abbrev Registry := List (String × PreviewSession)

/-- The four in-memory stores of server.ts that the periodic cleanup
interval can see (`migrationResults`, `planSessions`, `diagnoseSessions`,
`previewSessions`). -/
structure ServerState where
  migrationResults : List (String × MigrationResult)
  planSessions : List (String × PlanSession)
  diagnoseSessions : List (String × PlanSession)
  previewSessions : Registry
deriving Repr, DecidableEq

/-! ## Lifecycle reaper (server.ts, the `setInterval` sweep) -/

/-- Side effects the sweep and the stop endpoint perform, as an explicit
trace: `fs.remove(path)` and `process.kill(pid, "SIGTERM")`. -/
inductive SweepAction where
  | removePath (p : String)
  | kill (pid : Int)
deriving Repr, DecidableEq

/-- `const CLEANUP_INTERVAL = 10 * 60 * 1000` (server.ts): both the sweep
period and the TTL compared against entry age. -/
def cleanupInterval : Nat := 10 * 60 * 1000

/-- Translation of the body of the `setInterval(() => ...)` sweep
(server.ts): at time `now`, drop every `migrationResults`, `planSessions`
and `diagnoseSessions` entry with `now - timestamp > CLEANUP_INTERVAL`,
emitting an `fs.remove` action for its zip/temp path.  The source callback
iterates exactly these three maps; `previewSessions` does not occur in it. -/
def sweepOnce (now : Nat) (st : ServerState) : ServerState × List SweepAction :=
  let expiredM := st.migrationResults.filter (fun e => now - e.2.timestamp > cleanupInterval)
  let expiredP := st.planSessions.filter (fun e => now - e.2.timestamp > cleanupInterval)
  let expiredD := st.diagnoseSessions.filter (fun e => now - e.2.timestamp > cleanupInterval)
  let st' : ServerState :=
    { migrationResults := st.migrationResults.filter (fun e => !(now - e.2.timestamp > cleanupInterval))
      planSessions := st.planSessions.filter (fun e => !(now - e.2.timestamp > cleanupInterval))
      diagnoseSessions := st.diagnoseSessions.filter (fun e => !(now - e.2.timestamp > cleanupInterval))
      previewSessions := st.previewSessions }
  (st', expiredM.map (fun e => SweepAction.removePath e.2.zipPath)
        ++ expiredP.map (fun e => SweepAction.removePath e.2.tempDir)
        ++ expiredD.map (fun e => SweepAction.removePath e.2.tempDir))

/-! ## Port allocator (server.ts, `getFreePort`) -/

/-- Iteration core of `getFreePort`: `for (let p = start; p <= end; p++)
if (await tryPort(p)) return p;` followed by
`throw new Error("No free port found")`.  The oracle `bound p = true`
means the ephemeral bind of `tryPort p` fails (port already taken);
on a successful bind the listener is closed at once and `p` returned.
`fuel` is the number of remaining loop iterations. -/
def getFreePortAux (bound : Nat → Bool) : Nat → Nat → Except String Nat
  | 0, _ => .error "No free port found"
  | fuel + 1, p => if bound p then getFreePortAux bound fuel (p + 1) else .ok p

/-- Translation of `getFreePort(start = 5100, end = 5199)` (server.ts). -/
def getFreePort (bound : Nat → Bool) (start : Nat := 5100) (stop : Nat := 5199) :
    Except String Nat :=
  getFreePortAux bound (stop + 1 - start) start

/-! ## Health prober (server.ts, `ping` / `waitForOkAny`) -/

/-- Result shape of `ping` (server.ts): `\x7b ok, status \x7d`; a request error
or timeout yields `\x7b ok: false, status: 0 \x7d`. -/
structure PingResult where
  ok : Bool
  status : Nat
deriving Repr, DecidableEq

/-- Backend oracle: elapsed time, URL and method (`"HEAD"` / `"GET"`) to the
`ping` outcome.  The per-request timeout `Math.min(2000, intervalMs)` only
bounds wall-clock time and is absorbed into the oracle. -/
abbrev Backend := Nat → String → String → PingResult

/-- The candidate paths of `waitForOkAny` (server.ts):
`["/", "/index.html", "/api/health", "/api/hello", "/api/status"]`. -/
def probePaths : List String := ["/", "/index.html", "/api/health", "/api/hello", "/api/status"]

/-- `new URL(p, base).toString()` for the call sites at hand: every candidate
`p` is path-absolute, so the result is the origin of `base` followed by `p`. -/
def resolveUrl (base p : String) : String :=
  if base.endsWith "/" then base.dropRight 1 ++ p else base ++ p

/-- One pass of the inner `for (const p of paths)` loop of `waitForOkAny`
at elapsed time `t`: for each path in order, `ping(url, "HEAD")`, and on
failure `ping(url, "GET")`; the first success returns true. -/
def tryPathsOnce (backend : Backend) (t : Nat) (base : String) : List String → Bool
  | [] => false
  | p :: rest =>
    let url := resolveUrl base p
    if (backend t url "HEAD").ok then true
    else if (backend t url "GET").ok then true
    else tryPathsOnce backend t base rest

/-- The outer `while (Date.now() - t0 < totalMs)` loop of `waitForOkAny`,
with time advancing by `intervalMs` per iteration (the
`setTimeout(r, intervalMs)` sleep); `fuel` bounds the recursion and is
chosen large enough (`totalMs + 1`) that it never expires before the time
budget does whenever `intervalMs ≥ 1`, as in every source call site. -/
def waitLoop (backend : Backend) (base : String) (totalMs intervalMs : Nat) :
    Nat → Nat → Bool
  | 0, _ => false
  | fuel + 1, elapsed =>
    if elapsed < totalMs then
      if tryPathsOnce backend elapsed base probePaths then true
      else waitLoop backend base totalMs intervalMs fuel (elapsed + intervalMs)
    else false

/-- Translation of `waitForOkAny(base, totalMs = 20000, intervalMs = 600)`
(server.ts). -/
def waitForOkAny (backend : Backend) (base : String)
    (totalMs : Nat := 20000) (intervalMs : Nat := 600) : Bool :=
  waitLoop backend base totalMs intervalMs (totalMs + 1) 0

/-! ## Dev server launcher (server.ts, `spawnDev` / `spawnDevServerWithRetry`) -/

/-- One `spawn` invocation as issued by `spawnDev` (server.ts): working
directory, argument vector, the `PORT` entry the strategy put into the
environment, and the `stdio` disposition. -/
structure SpawnCall where
  cwd : String
  args : List String
  envPORT : Option String
  stdio : String
deriving Repr, DecidableEq

/-- Translation of `spawnDev(cwd, args, env, stdio = "inherit")`
(server.ts): spawns `npm` with the given arguments; the default `stdio`
is the string `"inherit"` (child output goes to the parent console). -/
def spawnDev (cwd : String) (args : List String) (envPORT : Option String)
    (stdio : String := "inherit") : SpawnCall :=
  { cwd := cwd, args := args, envPORT := envPORT, stdio := stdio }

/-- One element of the per-attempt `tries` array of
`spawnDevServerWithRetry` (server.ts): `\x7b args, env, note \x7d`, with the
environment abbreviated to its `PORT` entry. -/
structure LaunchTry where
  args : List String
  envPORT : Option String
  note : String
deriving Repr, DecidableEq

/-- Construction of the `tries` array for one attempt of
`spawnDevServerWithRetry` (server.ts): the first entry is the Vite, Next
or unknown-framework `--port` variant, and for Next a second flag-free
entry (`ENV PORT` only) is appended. -/
def triesFor (isVite isNext : Bool) (port : Nat) : List LaunchTry :=
  let commonArgs : List String := ["run", "dev", "--", "--port", toString port]
  let first : LaunchTry :=
    if isVite then
      { args := commonArgs ++ ["--host", "127.0.0.1", "--strictPort"],
        envPORT := some (toString port), note := "vite --port --strictPort" }
    else if isNext then
      { args := commonArgs, envPORT := some (toString port), note := "next --port" }
    else
      { args := commonArgs, envPORT := some (toString port), note := "unknown --port" }
  first ::
    (if isNext then
      [{ args := ["run", "dev"], envPORT := some (toString port), note := "next env PORT only" }]
    else [])

/-- Trace of one strategy try inside an attempt: the spawn call issued, the
child pid, the URL handed to `waitForOkAny`, the probe outcome, and whether
the child was SIGTERMed afterwards (the source kills exactly when the probe
failed, before moving on). -/
structure TryRecord where
  call : SpawnCall
  pid : Nat
  probeUrl : String
  probeOk : Bool
  killedAfter : Bool
deriving Repr, DecidableEq

/-- Successful launch result of `spawnDevServerWithRetry`:
`\x7b child, port \x7d`, with the child abbreviated to its pid. -/
structure LaunchOk where
  pid : Nat
  port : Nat
deriving Repr, DecidableEq

/-- The base URL `spawnDevServerWithRetry` probes:
`http://127.0.0.1:<port>` (no trailing slash in the source template). -/
def devUrl (port : Nat) : String := "http://127.0.0.1:" ++ toString port

/-- The inner `for (const t of tries)` loop of `spawnDevServerWithRetry`
(server.ts): spawn via `spawnDev(cwd, t.args, t.env ?? process.env)` (so
with the default `stdio = "inherit"`), run `waitForOkAny` on the requested
port's URL — abstracted by the oracle `probeOracle` on the try index — and
either return `\x7b child, port \x7d` or SIGTERM the child and continue.
`pidOf` is the OS's pid assignment for the try index. -/
def runTries (cwd : String) (port : Nat) (probeOracle : Nat → Bool) (pidOf : Nat → Nat) :
    Nat → List LaunchTry → Option LaunchOk × List TryRecord
  | _, [] => (none, [])
  | j, t :: rest =>
    let call := spawnDev cwd t.args t.envPORT
    let pid := pidOf j
    let ok := probeOracle j
    if ok then
      (some { pid := pid, port := port },
       [{ call := call, pid := pid, probeUrl := devUrl port, probeOk := ok, killedAfter := false }])
    else
      let next := runTries cwd port probeOracle pidOf (j + 1) rest
      (next.1,
       { call := call, pid := pid, probeUrl := devUrl port, probeOk := ok, killedAfter := true }
         :: next.2)

/-- Trace of one attempt of the outer retry loop: the single port obtained
from `getFreePort` for this attempt, and the strategy tries run with it. -/
structure AttemptRecord where
  port : Nat
  tries : List TryRecord
deriving Repr, DecidableEq

/-- The outer `for (let attempt = 0; attempt < maxRetry; attempt++)` loop of
`spawnDevServerWithRetry` (server.ts): per attempt, allocate one port
(`alloc attempt` abstracts the awaited `getFreePort()` result), build the
`tries` array for the detected framework, run the tries, and on failure of
all of them continue with the next attempt; exhausting `maxRetry` attempts
throws `Error("Failed to start dev server")`. -/
def launchAttempts (cwd : String) (isVite isNext : Bool) (alloc : Nat → Nat)
    (probeOracle : Nat → Nat → Bool) (pidOf : Nat → Nat → Nat) :
    Nat → Nat → Except String LaunchOk × List AttemptRecord
  | 0, _ => (.error "Failed to start dev server", [])
  | n + 1, attempt =>
    let port := alloc attempt
    let tries := triesFor isVite isNext port
    let r := runTries cwd port (probeOracle attempt) (pidOf attempt) 0 tries
    match r.1 with
    | some okr => (.ok okr, [{ port := port, tries := r.2 }])
    | none =>
      let rest := launchAttempts cwd isVite isNext alloc probeOracle pidOf n (attempt + 1)
      (rest.1, { port := port, tries := r.2 } :: rest.2)

/-- Translation of `spawnDevServerWithRetry(cwd, _ignored, maxRetry = 4)`
(server.ts), with the `package.json` inspection abstracted into the two
booleans it yields and OS nondeterminism into oracles. -/
def spawnDevServerWithRetry (cwd : String) (isVite isNext : Bool) (alloc : Nat → Nat)
    (probeOracle : Nat → Nat → Bool) (pidOf : Nat → Nat → Nat) (maxRetry : Nat := 4) :
    Except String LaunchOk × List AttemptRecord :=
  launchAttempts cwd isVite isNext alloc probeOracle pidOf maxRetry 0

/-! ## Preview stop endpoint (server.ts, `DELETE /api/preview/:id`) -/

/-- The HTTP response of the stop endpoint, abbreviated to status code and
the `ok` field of the JSON body. -/
structure DeleteResponse where
  status : Nat
  ok : Bool
deriving Repr, DecidableEq

/-- Translation of the `app.delete("/api/preview/:id")` handler (server.ts):
unknown id yields `404 \x7b ok: false \x7d` and no side effect; otherwise
`process.kill(sess.childPid, "SIGTERM")` (exceptions swallowed), the map
entry is deleted, `fs.remove(sess.tempDir)` (errors swallowed), and
`\x7b ok: true \x7d` is sent with the default 200 status.  The handler is total:
every fallible step is wrapped in try/catch or `.catch`. -/
def deletePreview (reg : Registry) (id : String) :
    DeleteResponse × Registry × List SweepAction :=
  match List.lookup id reg with
  | none => ({ status := 404, ok := false }, reg, [])
  | some sess =>
      ({ status := 200, ok := true },
       reg.filter (fun e => !(id == e.1)),
       [SweepAction.kill sess.childPid, SweepAction.removePath sess.tempDir])

/-! ## Reverse proxy router (server.ts, referer middleware and
`/preview/:id` mount) -/

/-- The absolute-asset test of the referer middleware (server.ts):
`/^\/(@vite|src|node_modules|__vite_ping)/.test(req.path)`. -/
def absAssetL (cs : List Char) : Bool :=
  List.isPrefixOf "/@vite".data cs || List.isPrefixOf "/src".data cs
    || List.isPrefixOf "/node_modules".data cs || List.isPrefixOf "/__vite_ping".data cs

/-- String-level wrapper for `absAssetL`. -/
def absAsset (p : String) : Bool := absAssetL p.data

/-- Character class `[0-9a-f-]` of the referer regex. -/
def isHexDash (c : Char) : Bool :=
  (48 ≤ c.toNat && c.toNat ≤ 57) || (97 ≤ c.toNat && c.toNat ≤ 102) || c = '-'

/-- Leftmost match of `/\/preview\/([0-9a-f-]{36})/` over a character list:
find the first position where the literal `/preview/` occurs and is
followed by at least 36 characters of the class, and capture those 36. -/
def scanPreviewId : List Char → Option (List Char)
  | [] => none
  | c :: rest =>
    let here := c :: rest
    if List.isPrefixOf "/preview/".data here then
      let cand := (here.drop 9).take 36
      if cand.length = 36 && cand.all isHexDash then some cand
      else scanPreviewId rest
    else scanPreviewId rest

/-- The session id the referer middleware extracts from the `Referer`
header (server.ts): `ref.match(/\/preview\/([0-9a-f-]{36})/)`. -/
def refererSessionId (ref : String) : Option String :=
  (scanPreviewId ref.data).map (fun cs => String.mk cs)

/-- The `:id` parameter of the Express mount `app.use("/preview/:id", ...)`:
the nonempty path segment following the `/preview/` prefix. -/
def previewPathId (p : String) : Option String :=
  match p.data with
  | '/' :: 'p' :: 'r' :: 'e' :: 'v' :: 'i' :: 'e' :: 'w' :: '/' :: rest =>
    let idChars := rest.takeWhile (fun c => c ≠ '/')
    if idChars.isEmpty then none else some (String.mk idChars)
  | _ => none

/-- The `pathRewrite` of the `/preview/:id` proxy (server.ts):
`path.slice(prefix.length) || "/"` where the path starts with the prefix. -/
def stripPreviewRoutePath (p pre : String) : String :=
  let r := p.data.drop pre.data.length
  if r.isEmpty then "/" else String.mk r

/-- What the router does with one inbound request: answer directly, proxy
to a backend port with a (possibly rewritten) path, or pass the request on
to the rest of the Express stack. -/
inductive RouteAction where
  | respond (status : Nat) (body : String)
  | proxyTo (port : Nat) (path : String)
  | passThrough
deriving Repr, DecidableEq

/-- Translation of the referer-based fallback middleware (server.ts): when
the `Referer` matches `/preview/<36-char id>` and the path matches the
absolute-asset set, either 404 (id not registered) or proxy the path
verbatim to the session's port; in every other case `next()` (here
`none`). -/
def refererMw (reg : Registry) (path referer : String) : Option RouteAction :=
  match refererSessionId referer with
  | some id =>
    if absAsset path then
      match List.lookup id reg with
      | none => some (RouteAction.respond 404 "Preview session not found")
      | some sess => some (RouteAction.proxyTo sess.port path)
    else none
  | none => none

/-- Composition of the two preview middlewares (server.ts): the referer
fallback runs first; then the `/preview/:id` mount answers 404 for an
unregistered id or proxies with the prefix stripped; anything else falls
through to the rest of the app. -/
def route (reg : Registry) (path referer : String) : RouteAction :=
  match refererMw reg path referer with
  | some a => a
  | none =>
    match previewPathId path with
    | some id =>
      match List.lookup id reg with
      | none => RouteAction.respond 404 "Preview not found or stopped"
      | some sess => RouteAction.proxyTo sess.port (stripPreviewRoutePath path ("/preview/" ++ id))
    | none => RouteAction.passThrough

/-! ## Concrete fixtures used by counterexamples and witnesses -/

/-- A registered preview session used by the concrete theorems. -/
def sessA : PreviewSession :=
  { id := "0123456789abcdef0123456789abcdef0123", port := 5123,
    tempDir := "temp/preview/abc", childPid := 777, startedAt := 0 }

/-- A one-session registry holding `sessA`. -/
def reg0 : Registry := [("0123456789abcdef0123456789abcdef0123", sessA)]

/-- A `Referer` header naming `sessA`'s session. -/
def refA : String := "http://localhost:5002/preview/0123456789abcdef0123456789abcdef0123"

/-- A `Referer` header naming a well-formed but unregistered session id. -/
def refUnknown : String := "http://localhost:5002/preview/ffffffffffffffffffffffffffffffffffff"

/-- Server state holding one expired plan session and one preview session
whose age exceeds the TTL. -/
def st0 : ServerState :=
  { migrationResults := []
    planSessions := [("p1", { projectRoot := "temp/extracted/p1/app",
                              tempDir := "temp/extracted/p1", timestamp := 0 })]
    diagnoseSessions := []
    previewSessions := [("a-id", { id := "a-id", port := 5100,
                                   tempDir := "temp/preview/a", childPid := 4242,
                                   startedAt := 0 })] }

/-- A backend that answers 200 OK to every request. -/
def backend200 : Backend := fun _ _ _ => { ok := true, status := 200 }

/-- A backend that answers 500 to every request for the whole budget. -/
def backend500 : Backend := fun _ _ _ => { ok := false, status := 500 }

/-- Discriminator for `SweepAction`: true exactly on `removePath`. -/
def SweepAction.isRemovePath : SweepAction → Bool
  | .removePath _ => true
  | .kill _ => false

/-! ## Theorems -/

/-- **C1** (code bug).  The spec says one run of the periodic reaper sweep
kills, deletes and evicts every preview session older than its TTL.  The
`setInterval` callback in server.ts iterates only `migrationResults`,
`planSessions` and `diagnoseSessions`: it never reads `previewSessions`
(whose `startedAt` field is written and never read) and never emits a kill
signal.  Part one: for every time and state the sweep leaves
`previewSessions` untouched and performs only `fs.remove` actions.  Part
two evaluates the sweep at the failing input: at `now = 600001` the state
`st0` holds a preview session of age `600001 > TTL = 600000`; the sweep
removes the expired plan session yet keeps the preview session registered,
its process unkilled and its temp directory intact. -/
theorem c1_expired_preview_survives_sweep :
    (∀ (now : Nat) (st : ServerState),
      (sweepOnce now st).1.previewSessions = st.previewSessions
      ∧ (sweepOnce now st).2.all SweepAction.isRemovePath = true)
    ∧ sweepOnce 600001 st0 =
        ({ st0 with planSessions := [] }, [SweepAction.removePath "temp/extracted/p1"])
    ∧ List.lookup "a-id" (sweepOnce 600001 st0).1.previewSessions =
        some { id := "a-id", port := 5100, tempDir := "temp/preview/a",
               childPid := 4242, startedAt := 0 } := by
  refine ⟨fun now st => ⟨rfl, ?_⟩, by decide, by decide⟩
  simp only [sweepOnce, List.all_append, List.all_map, Bool.and_eq_true]
  refine ⟨⟨?_, ?_⟩, ?_⟩ <;>
    · rw [List.all_eq_true]
      intro a ha
      obtain ⟨e, _, rfl⟩ := List.mem_map.mp ha
      rfl

/-- First free port in ascending order: if the loop of `getFreePort`
returns `ok q`, then `q` is in the scanned window, unbound, and every
earlier candidate was bound. -/
theorem getFreePortAux_ok_spec (bound : Nat → Bool) :
    ∀ (fuel p0 q : Nat), getFreePortAux bound fuel p0 = .ok q →
      p0 ≤ q ∧ q < p0 + fuel ∧ bound q = false
      ∧ ∀ r, p0 ≤ r → r < q → bound r = true := by
  intro fuel
  induction fuel with
  | zero => intro p0 q h; simp [getFreePortAux] at h
  | succ n ih =>
    intro p0 q h
    simp only [getFreePortAux] at h
    by_cases hb : bound p0 = true
    · rw [if_pos hb] at h
      obtain ⟨h1, h2, h3, h4⟩ := ih (p0 + 1) q h
      refine ⟨by omega, by omega, h3, ?_⟩
      intro r hr1 hr2
      rcases Nat.eq_or_lt_of_le hr1 with he | hl
      · rw [← he]; exact hb
      · exact h4 r hl hr2
    · rw [if_neg hb] at h
      injection h with he
      subst he
      exact ⟨Nat.le_refl _, by omega, Bool.eq_false_iff.mpr hb, fun r hr1 hr2 => by omega⟩

/-- Exhaustion: if every port of the scanned window is bound, the loop of
`getFreePort` fails with the source's error. -/
theorem getFreePortAux_err_spec (bound : Nat → Bool) :
    ∀ (fuel p0 : Nat), (∀ r, p0 ≤ r → r < p0 + fuel → bound r = true) →
      getFreePortAux bound fuel p0 = .error "No free port found" := by
  intro fuel
  induction fuel with
  | zero => intro p0 _; rfl
  | succ n ih =>
    intro p0 hall
    have hb : bound p0 = true := hall p0 (Nat.le_refl _) (by omega)
    simp only [getFreePortAux, if_pos hb]
    exact ih (p0 + 1) (fun r hr1 hr2 => hall r (by omega) (by omega))

/-- **C8** (confirmed).  `getFreePort(start, end)` tries to bind each
candidate port of the range in ascending order (the `bound` oracle records
which binds fail), returns the first port whose ephemeral bind succeeds
(the listener being closed at once), and, when every port of the range is
bound, fails with the port-exhausted error
`Error("No free port found")` — the spec's `PortExhausted`. -/
theorem c8_port_allocator_first_free :
    ∀ (bound : Nat → Bool) (start stop q : Nat),
      (getFreePort bound start stop = Except.ok q →
        start ≤ q ∧ q ≤ stop ∧ bound q = false
        ∧ ∀ r, start ≤ r → r < q → bound r = true)
      ∧ ((∀ r, start ≤ r → r ≤ stop → bound r = true) →
        getFreePort bound start stop = Except.error "No free port found") := by
  intro bound start stop q
  constructor
  · intro h
    obtain ⟨h1, h2, h3, h4⟩ := getFreePortAux_ok_spec bound (stop + 1 - start) start q h
    exact ⟨h1, by omega, h3, h4⟩
  · intro hall
    exact getFreePortAux_err_spec bound (stop + 1 - start) start
      (fun r hr1 hr2 => hall r hr1 (by omega))

/-- Witness for C8: with ports 5100 and 5101 bound, the allocator returns
5102, the first free port; with every port bound it reports exhaustion. -/
theorem c8_witness :
    (5100 ≤ 5102 ∧ 5102 ≤ 5199 ∧ (fun p => decide (p ≤ 5101)) 5102 = false
      ∧ ∀ r, 5100 ≤ r → r < 5102 → (fun p => decide (p ≤ 5101)) r = true)
    ∧ getFreePort (fun _ => true) 5100 5199 = Except.error "No free port found" :=
  ⟨(c8_port_allocator_first_free (fun p => decide (p ≤ 5101)) 5100 5199 5102).1 rfl,
   (c8_port_allocator_first_free (fun _ => true) 5100 5199 0).2 (fun _ _ _ => rfl)⟩

/-- **C3** (counterexample).  The claim asserts ports of concurrently live
sessions are pairwise distinct at allocation time, the allocator marking
each handed-out port reserved before the spawn.  `getFreePort` keeps no
reservation state: it is a pure probe of the OS bind table.  Two
back-to-back allocations made while the first session's dev server has not
yet bound its port (so with the identical bind table, here everything
free) both return port 5100 — the two live sessions share a port. -/
theorem c3_counterexample :
    (getFreePort (fun _ => false) 5100 5199, getFreePort (fun _ => false) 5100 5199) =
      (Except.ok 5100, Except.ok 5100) := rfl

/-- **C3** (amended).  Allocated ports are distinct only once the earlier
session's server has actually bound its port: if a first allocation
returned `p1` and, by the time of the second allocation, `p1` is bound in
the OS table, then the second allocation returns a different port.  No
reservation is made by the allocator itself, so the guarantee fails
whenever the first server has not yet bound (see the counterexample). -/
theorem c3_ports_distinct_only_after_bind :
    ∀ (bound1 bound2 : Nat → Bool) (s e p1 p2 : Nat),
      getFreePort bound1 s e = Except.ok p1 →
      bound2 p1 = true →
      getFreePort bound2 s e = Except.ok p2 →
      p1 ≠ p2 := by
  intro bound1 bound2 s e p1 p2 _ hb h2 he
  obtain ⟨_, _, hfree, _⟩ := getFreePortAux_ok_spec bound2 (e + 1 - s) s p2 h2
  rw [he, hfree] at hb
  exact Bool.false_ne_true hb

/-- Witness for C3's amended theorem: with the first server bound on 5100,
the second allocation returns 5101, distinct from 5100. -/
theorem c3_witness :
    getFreePort (fun _ => false) 5100 5199 = Except.ok 5100
    ∧ getFreePort (fun p => p == 5100) 5100 5199 = Except.ok 5101
    ∧ (5100 : Nat) ≠ 5101 :=
  ⟨rfl, rfl,
   c3_ports_distinct_only_after_bind (fun _ => false) (fun p => p == 5100)
     5100 5199 5100 5101 rfl rfl rfl⟩

/-- Looking up a key in a registry scrubbed of that key returns nothing. -/
theorem lookup_scrub (l : Registry) (id : String) :
    List.lookup id (l.filter (fun e => !(id == e.1))) = none := by
  induction l with
  | nil => rfl
  | cons e t ih =>
    obtain ⟨k, v⟩ := e
    by_cases h : (id == k) = true
    · simp [List.filter_cons, h, ih]
    · have hb : (id == k) = false := Bool.eq_false_iff.mpr h
      simp [List.filter_cons, hb, List.lookup, ih]

/-- **C4** (confirmed).  Two consecutive stop calls on a registered id: the
first succeeds — it sends `SIGTERM` to the session's process, removes its
temp directory and evicts the registry entry — the second returns
not-found with no side effects, and an unknown id always returns
not-found.  Neither call throws: `deletePreview` is total, mirroring the
source handler whose kill is wrapped in try/catch and whose `fs.remove`
failure is swallowed by `.catch`. -/
theorem c4_stop_idempotent :
    ∀ (reg : Registry) (id : String) (sess : PreviewSession),
      List.lookup id reg = some sess →
        (deletePreview reg id).1 = { status := 200, ok := true }
        ∧ (deletePreview reg id).2.2 =
            [SweepAction.kill sess.childPid, SweepAction.removePath sess.tempDir]
        ∧ List.lookup id (deletePreview reg id).2.1 = none
        ∧ (deletePreview (deletePreview reg id).2.1 id).1 = { status := 404, ok := false }
        ∧ (deletePreview (deletePreview reg id).2.1 id).2.2 = []
        ∧ ∀ (reg' : Registry) (id' : String), List.lookup id' reg' = none →
            (deletePreview reg' id').1 = { status := 404, ok := false } := by
  intro reg id sess h
  have hN : List.lookup id (reg.filter fun e => !(id == e.1)) = none := lookup_scrub reg id
  refine ⟨?_, ?_, ?_, ?_, ?_, ?_⟩
  · simp [deletePreview, h]
  · simp [deletePreview, h]
  · simp [deletePreview, h, hN]
  · simp [deletePreview, h, hN]
  · simp [deletePreview, h, hN]
  · intro reg' id' h'
    simp [deletePreview, h']

/-- Witness for C4 at the one-session registry `reg0`: first stop answers
ok, evicts the entry, and the second stop answers 404. -/
theorem c4_witness :
    (deletePreview reg0 "0123456789abcdef0123456789abcdef0123").1 =
        { status := 200, ok := true }
    ∧ List.lookup "0123456789abcdef0123456789abcdef0123"
        (deletePreview reg0 "0123456789abcdef0123456789abcdef0123").2.1 = none
    ∧ (deletePreview (deletePreview reg0 "0123456789abcdef0123456789abcdef0123").2.1
        "0123456789abcdef0123456789abcdef0123").1 = { status := 404, ok := false } :=
  ⟨(c4_stop_idempotent reg0 "0123456789abcdef0123456789abcdef0123" sessA rfl).1,
   (c4_stop_idempotent reg0 "0123456789abcdef0123456789abcdef0123" sessA rfl).2.2.1,
   (c4_stop_idempotent reg0 "0123456789abcdef0123456789abcdef0123" sessA rfl).2.2.2.1⟩

/-- **C5** (counterexample).  The claim says the DELETE endpoint returns an
ok response even when the session id was already gone.  Stopping `sessA`
and then stopping the same id again — the id is now gone — yields status
404 with `ok: false`, not an ok response; a never-registered id on the
empty registry behaves the same. -/
theorem c5_counterexample :
    (deletePreview (deletePreview reg0 "0123456789abcdef0123456789abcdef0123").2.1
        "0123456789abcdef0123456789abcdef0123").1 = { status := 404, ok := false }
    ∧ (deletePreview [] "0123456789abcdef0123456789abcdef0123").1 =
        { status := 404, ok := false } := by
  constructor <;> rfl

/-- **C5** (amended).  When the given session id is already gone (stopped
earlier or never registered) the DELETE endpoint returns not-found — 404
with `ok: false` — leaving the registry unchanged and performing no side
effect; an ok response is returned only when the session still existed. -/
theorem c5_delete_gone_returns_not_found :
    ∀ (reg : Registry) (id : String),
      (List.lookup id reg = none →
        (deletePreview reg id).1 = { status := 404, ok := false }
        ∧ (deletePreview reg id).2.1 = reg
        ∧ (deletePreview reg id).2.2 = [])
      ∧ (∀ sess, List.lookup id reg = some sess → (deletePreview reg id).1.ok = true) := by
  intro reg id
  constructor
  · intro h
    refine ⟨?_, ?_, ?_⟩ <;> simp [deletePreview, h]
  · intro sess h
    simp [deletePreview, h]

/-- Witness for C5's amended theorem: the empty registry answers 404 with
`ok: false` and stays empty; the registered id answers ok. -/
theorem c5_witness :
    (deletePreview [] "deadbeef").1 = { status := 404, ok := false }
    ∧ (deletePreview [] "deadbeef").2.1 = []
    ∧ (deletePreview reg0 "0123456789abcdef0123456789abcdef0123").1.ok = true :=
  ⟨((c5_delete_gone_returns_not_found [] "deadbeef").1 rfl).1,
   ((c5_delete_gone_returns_not_found [] "deadbeef").1 rfl).2.1,
   (c5_delete_gone_returns_not_found reg0 "0123456789abcdef0123456789abcdef0123").2 sessA rfl⟩

/-- If some path of the list answers ok to the HEAD or to the follow-up GET
at tick `t`, the inner path loop of `waitForOkAny` reports success. -/
theorem tryPathsOnce_of_mem (backend : Backend) (t : Nat) (base : String) :
    ∀ (paths : List String) (p : String), p ∈ paths →
      ((backend t (resolveUrl base p) "HEAD").ok = true
        ∨ (backend t (resolveUrl base p) "GET").ok = true) →
      tryPathsOnce backend t base paths = true := by
  intro paths
  induction paths with
  | nil => intro p hp; cases hp
  | cons q rest ih =>
    intro p hp hok
    simp only [tryPathsOnce]
    by_cases h1 : (backend t (resolveUrl base q) "HEAD").ok = true
    · rw [if_pos h1]
    · rw [if_neg h1]
      by_cases h2 : (backend t (resolveUrl base q) "GET").ok = true
      · rw [if_pos h2]
      · rw [if_neg h2]
        rcases List.mem_cons.mp hp with he | hm
        · subst he
          rcases hok with h | h
          · exact absurd h h1
          · exact absurd h h2
        · exact ih p hm hok

/-- If the backend never answers ok, the inner path loop fails. -/
theorem tryPathsOnce_false (backend : Backend) (t : Nat) (base : String)
    (hall : ∀ u m, (backend t u m).ok = false) :
    ∀ paths, tryPathsOnce backend t base paths = false := by
  intro paths
  induction paths with
  | nil => rfl
  | cons q rest ih =>
    simp only [tryPathsOnce]
    rw [if_neg (by simp [hall]), if_neg (by simp [hall])]
    exact ih

/-- If the backend never answers ok, the polling loop of `waitForOkAny`
returns false however much fuel and budget it is given. -/
theorem waitLoop_false (backend : Backend) (base : String) (totalMs intervalMs : Nat)
    (hall : ∀ t u m, (backend t u m).ok = false) :
    ∀ (fuel elapsed : Nat),
      waitLoop backend base totalMs intervalMs fuel elapsed = false := by
  intro fuel
  induction fuel with
  | zero => intro elapsed; rfl
  | succ n ih =>
    intro elapsed
    simp only [waitLoop]
    by_cases h : elapsed < totalMs
    · rw [if_pos h, if_neg ?_]
      · exact ih (elapsed + intervalMs)
      · rw [tryPathsOnce_false backend elapsed base (fun u m => hall elapsed u m)]
        simp
    · rw [if_neg h]

/-- **C7** (confirmed).  `waitForOkAny(base, totalMs, intervalMs)` ticks
through the fixed candidate paths, each probed by a short-timeout HEAD and,
on failure, re-probed by GET; the first success on any path yields true,
otherwise it sleeps `intervalMs` and repeats until the budget `totalMs`
elapses, then yields false.  Consequently: against a backend answering
200 everywhere it returns true within budget; a backend whose every HEAD
fails but which answers some candidate's GET at the first tick also yields
true (the GET retry); and against a backend answering only 500s for the
whole budget it returns false. -/
theorem c7_prober_budget :
    ∀ (backend : Backend) (base : String) (totalMs intervalMs : Nat),
      ((∀ t u m, (backend t u m).ok = true) → 0 < totalMs →
        waitForOkAny backend base totalMs intervalMs = true)
      ∧ ((∀ t u, (backend t u "HEAD").ok = false) →
          (∀ p, p ∈ probePaths → (backend 0 (resolveUrl base p) "GET").ok = true) →
          0 < totalMs →
          waitForOkAny backend base totalMs intervalMs = true)
      ∧ ((∀ t u m, (backend t u m).ok = false) →
          waitForOkAny backend base totalMs intervalMs = false) := by
  intro backend base totalMs intervalMs
  refine ⟨?_, ?_, ?_⟩
  · intro hall hpos
    unfold waitForOkAny
    simp only [waitLoop]
    rw [if_pos hpos,
      if_pos (tryPathsOnce_of_mem backend 0 base probePaths "/" (by simp [probePaths])
        (Or.inl (hall 0 (resolveUrl base "/") "HEAD")))]
  · intro hhead hget hpos
    unfold waitForOkAny
    simp only [waitLoop]
    rw [if_pos hpos,
      if_pos (tryPathsOnce_of_mem backend 0 base probePaths "/" (by simp [probePaths])
        (Or.inr (hget "/" (by simp [probePaths]))))]
  · intro hall
    exact waitLoop_false backend base totalMs intervalMs hall (totalMs + 1) 0

/-- Witness for C7: a stub answering 200 on every candidate path makes the
prober return true within the default budget, and a stub answering only
500s for the whole budget makes it return false. -/
theorem c7_witness :
    waitForOkAny backend200 "http://127.0.0.1:5123" 20000 600 = true
    ∧ waitForOkAny backend500 "http://127.0.0.1:5123" 2000 300 = false :=
  ⟨(c7_prober_budget backend200 "http://127.0.0.1:5123" 20000 600).1
      (fun _ _ _ => rfl) (by decide),
   (c7_prober_budget backend500 "http://127.0.0.1:5123" 2000 300).2.2
      (fun _ _ _ => rfl)⟩

/-- A path carrying the `/preview/:id` mount prefix never matches the
absolute-asset set of the referer middleware. -/
theorem absAsset_of_previewPath (p id : String) (h : previewPathId p = some id) :
    absAsset p = false := by
  unfold previewPathId at h
  split at h
  · rename_i rest heq
    unfold absAsset absAssetL
    rw [heq]
    rfl
  · exact absurd h (by simp)

/-- On a path outside the absolute-asset set the referer middleware always
calls `next()`, whatever the `Referer` header holds. -/
theorem refererMw_none_of_not_abs (reg : Registry) (path referer : String)
    (ha : absAsset path = false) : refererMw reg path referer = none := by
  unfold refererMw
  cases refererSessionId referer with
  | none => rfl
  | some id => simp [ha]

/-- **C9** (confirmed).  Every proxied request naming a session id absent
from the registry is answered immediately with a not-found response:
an absolute-asset request whose `Referer`-inferred id is unregistered gets
the referer middleware's 404, and a `/preview/:id` request with an unknown
or expired id gets the mount's 404.  `route` is a total function — the
router neither hangs nor drops such a request. -/
theorem c9_unknown_session_not_found :
    ∀ (reg : Registry) (path referer id : String),
      (refererSessionId referer = some id → absAsset path = true →
        List.lookup id reg = none →
        route reg path referer = RouteAction.respond 404 "Preview session not found")
      ∧ (previewPathId path = some id → List.lookup id reg = none →
        route reg path referer = RouteAction.respond 404 "Preview not found or stopped") := by
  intro reg path referer id
  constructor
  · intro h1 h2 h3
    simp [route, refererMw, h1, h2, h3]
  · intro h1 h2
    have habs : absAsset path = false := absAsset_of_previewPath path id h1
    simp [route, refererMw_none_of_not_abs reg path referer habs, h1, h2]

/-- Witness for C9: in the one-session registry `reg0`, a Vite asset
request whose referer names an unregistered 36-character id is answered
404 by the referer middleware, and a `/preview/<unknown id>` request is
answered 404 by the mount. -/
theorem c9_witness :
    route reg0 "/src/main.js" refUnknown = RouteAction.respond 404 "Preview session not found"
    ∧ route reg0 "/preview/ffffffffffffffffffffffffffffffffffff" "" =
        RouteAction.respond 404 "Preview not found or stopped" :=
  ⟨(c9_unknown_session_not_found reg0 "/src/main.js" refUnknown
      "ffffffffffffffffffffffffffffffffffff").1 rfl rfl rfl,
   (c9_unknown_session_not_found reg0 "/preview/ffffffffffffffffffffffffffffffffffff" ""
      "ffffffffffffffffffffffffffffffffffff").2 rfl rfl⟩

/-- **C10** (confirmed).  The referer-based fallback forwards a request to
a backend only when the path matches the fixed absolute-asset set
`^/(@vite|src|node_modules|__vite_ping)` and the `Referer` carries
`/preview/<36-character id>` of a registered session, and it forwards the
path verbatim to that session's port; any request whose path is outside
the fixed set falls through the middleware regardless of its `Referer`,
and when such a path is also outside the `/preview/:id` mount the whole
router passes it through to normal routing — so no absolute path outside
the fixed set is ever proxied by the heuristic. -/
theorem c10_referer_fallback_scope :
    ∀ (reg : Registry) (path referer : String),
      (∀ port fwd, refererMw reg path referer = some (RouteAction.proxyTo port fwd) →
        absAsset path = true
        ∧ ∃ id sess, refererSessionId referer = some id
            ∧ List.lookup id reg = some sess ∧ port = sess.port ∧ fwd = path)
      ∧ (absAsset path = false → refererMw reg path referer = none)
      ∧ (absAsset path = false → previewPathId path = none →
          route reg path referer = RouteAction.passThrough) := by
  intro reg path referer
  refine ⟨?_, fun ha => refererMw_none_of_not_abs reg path referer ha, ?_⟩
  · intro port fwd h
    unfold refererMw at h
    split at h
    · rename_i id hr
      split at h
      · rename_i ha
        split at h
        · simp at h
        · rename_i sess hl
          injection h with h'
          injection h' with hp hf
          exact ⟨ha, id, sess, hr, hl, hp.symm, hf.symm⟩
      · cases h
    · cases h
  · intro ha hp
    simp [route, refererMw_none_of_not_abs reg path referer ha, hp]

/-- Witness for C10: a plain page path falls through the middleware and the
router even with a session-bearing referer, while a `/src` asset request
with that referer is forwarded, its path matching the asset set. -/
theorem c10_witness :
    refererMw reg0 "/about" refA = none
    ∧ route reg0 "/about" refA = RouteAction.passThrough
    ∧ absAsset "/src/main.js" = true :=
  ⟨(c10_referer_fallback_scope reg0 "/about" refA).2.1 rfl,
   (c10_referer_fallback_scope reg0 "/about" refA).2.2 rfl rfl,
   ((c10_referer_fallback_scope reg0 "/src/main.js" refA).1 5123 "/src/main.js" rfl).1⟩

/-- Every try record produced by the inner strategy loop was spawned in the
given working directory with the source's default `stdio = "inherit"`, was
probed at the requested port's URL, and was SIGTERMed whenever its probe
failed. -/
theorem runTries_props (cwd : String) (port : Nat) (po : Nat → Bool) (pf : Nat → Nat) :
    ∀ (ts : List LaunchTry) (j : Nat) (r : TryRecord),
      r ∈ (runTries cwd port po pf j ts).2 →
        r.call.cwd = cwd ∧ r.call.stdio = "inherit" ∧ r.probeUrl = devUrl port
        ∧ (r.probeOk = false → r.killedAfter = true) := by
  intro ts
  induction ts with
  | nil => intro j r hr; simp [runTries] at hr
  | cons t rest ih =>
    intro j r hr
    simp only [runTries] at hr
    by_cases h : po j = true
    · rw [if_pos h] at hr
      have hr2 := List.mem_singleton.mp hr
      subst hr2
      exact ⟨rfl, rfl, rfl, fun hf => absurd hf (by simp [h])⟩
    · rw [if_neg h] at hr
      rcases List.mem_cons.mp hr with he | hm
      · subst he
        exact ⟨rfl, rfl, rfl, fun _ => rfl⟩
      · exact ih (j + 1) r hm

/-- The spawn calls issued by the inner strategy loop are exactly the
initial segment of the strategy list it got through, each spawned via
`spawnDev` from the given working directory. -/
theorem runTries_calls (cwd : String) (port : Nat) (po : Nat → Bool) (pf : Nat → Nat) :
    ∀ (ts : List LaunchTry) (j : Nat),
      ((runTries cwd port po pf j ts).2).map (fun r => r.call)
        = (ts.take ((runTries cwd port po pf j ts).2).length).map
            (fun t => spawnDev cwd t.args t.envPORT) := by
  intro ts
  induction ts with
  | nil => intro j; rfl
  | cons t rest ih =>
    intro j
    simp only [runTries]
    by_cases h : po j = true
    · rw [if_pos h]
      rfl
    · rw [if_neg h]
      exact congrArg (List.cons (spawnDev cwd t.args t.envPORT)) (ih (j + 1))

/-- A successful inner strategy loop returns exactly the requested port,
and one of its try records carries a successful probe of that port. -/
theorem runTries_ok (cwd : String) (port : Nat) (po : Nat → Bool) (pf : Nat → Nat) :
    ∀ (ts : List LaunchTry) (j : Nat) (lr : LaunchOk),
      (runTries cwd port po pf j ts).1 = some lr →
        lr.port = port
        ∧ ∃ r, r ∈ (runTries cwd port po pf j ts).2
            ∧ r.probeOk = true ∧ r.probeUrl = devUrl port := by
  intro ts
  induction ts with
  | nil => intro j lr h; simp [runTries] at h
  | cons t rest ih =>
    intro j lr h
    simp only [runTries] at h ⊢
    by_cases hb : po j = true
    · rw [if_pos hb] at h ⊢
      have h2 : some ({ pid := pf j, port := port } : LaunchOk) = some lr := h
      injection h2 with he
      subst he
      exact ⟨rfl, ⟨_, List.mem_singleton.mpr rfl, hb, rfl⟩⟩
    · rw [if_neg hb] at h ⊢
      obtain ⟨h1, r, hmem, hok, hurl⟩ := ih (j + 1) lr h
      exact ⟨h1, r, List.mem_cons_of_mem _ hmem, hok, hurl⟩

/-- The outer retry loop performs at most as many attempts as its fuel. -/
theorem launchAttempts_length (cwd : String) (isVite isNext : Bool) (alloc : Nat → Nat)
    (po : Nat → Nat → Bool) (pf : Nat → Nat → Nat) :
    ∀ (N attempt : Nat),
      (launchAttempts cwd isVite isNext alloc po pf N attempt).2.length ≤ N := by
  intro N
  induction N with
  | zero => intro attempt; simp [launchAttempts]
  | succ m ih =>
    intro attempt
    simp only [launchAttempts]
    cases hr : (runTries cwd (alloc attempt) (po attempt) (pf attempt) 0
        (triesFor isVite isNext (alloc attempt))).1 with
    | some okr => simp
    | none =>
      show (_ :: _ : List AttemptRecord).length ≤ m + 1
      rw [List.length_cons]
      have := ih (attempt + 1)
      omega

/-- Shape of every attempt record of the outer retry loop: its single port
comes from one allocator call; its spawn calls are an initial segment of
the strategy list instantiated with that port; and every try satisfies the
per-try properties. -/
theorem launchAttempts_records (cwd : String) (isVite isNext : Bool) (alloc : Nat → Nat)
    (po : Nat → Nat → Bool) (pf : Nat → Nat → Nat) :
    ∀ (N attempt : Nat) (a : AttemptRecord),
      a ∈ (launchAttempts cwd isVite isNext alloc po pf N attempt).2 →
        (∃ k, attempt ≤ k ∧ k < attempt + N ∧ a.port = alloc k)
        ∧ a.tries.map (fun r => r.call)
            = ((triesFor isVite isNext a.port).take a.tries.length).map
                (fun t => spawnDev cwd t.args t.envPORT)
        ∧ ∀ r, r ∈ a.tries →
            r.call.cwd = cwd ∧ r.call.stdio = "inherit" ∧ r.probeUrl = devUrl a.port
            ∧ (r.probeOk = false → r.killedAfter = true) := by
  intro N
  induction N with
  | zero => intro attempt a ha; simp [launchAttempts] at ha
  | succ m ih =>
    intro attempt a ha
    simp only [launchAttempts] at ha
    cases hr : (runTries cwd (alloc attempt) (po attempt) (pf attempt) 0
        (triesFor isVite isNext (alloc attempt))).1 with
    | some okr =>
      rw [hr] at ha
      have ha2 := List.mem_singleton.mp ha
      subst ha2
      exact ⟨⟨attempt, Nat.le_refl _, by omega, rfl⟩,
        runTries_calls cwd (alloc attempt) (po attempt) (pf attempt)
          (triesFor isVite isNext (alloc attempt)) 0,
        fun r hrr => runTries_props cwd (alloc attempt) (po attempt) (pf attempt)
          (triesFor isVite isNext (alloc attempt)) 0 r hrr⟩
    | none =>
      rw [hr] at ha
      rcases List.mem_cons.mp ha with he | hm
      · subst he
        exact ⟨⟨attempt, Nat.le_refl _, by omega, rfl⟩,
          runTries_calls cwd (alloc attempt) (po attempt) (pf attempt)
            (triesFor isVite isNext (alloc attempt)) 0,
          fun r hrr => runTries_props cwd (alloc attempt) (po attempt) (pf attempt)
            (triesFor isVite isNext (alloc attempt)) 0 r hrr⟩
      · obtain ⟨⟨k, hk1, hk2, hp⟩, hcalls, hprops⟩ := ih (attempt + 1) a hm
        exact ⟨⟨k, by omega, by omega, hp⟩, hcalls, hprops⟩

/-- A successful outer retry loop returns the port of one of its recorded
attempts, whose probe of that very port succeeded. -/
theorem launchAttempts_ok (cwd : String) (isVite isNext : Bool) (alloc : Nat → Nat)
    (po : Nat → Nat → Bool) (pf : Nat → Nat → Nat) :
    ∀ (N attempt : Nat) (lr : LaunchOk),
      (launchAttempts cwd isVite isNext alloc po pf N attempt).1 = Except.ok lr →
        ∃ a, a ∈ (launchAttempts cwd isVite isNext alloc po pf N attempt).2
          ∧ a.port = lr.port
          ∧ ∃ r, r ∈ a.tries ∧ r.probeOk = true ∧ r.probeUrl = devUrl lr.port := by
  intro N
  induction N with
  | zero => intro attempt lr h; simp [launchAttempts] at h
  | succ m ih =>
    intro attempt lr h
    simp only [launchAttempts] at h ⊢
    cases hr : (runTries cwd (alloc attempt) (po attempt) (pf attempt) 0
        (triesFor isVite isNext (alloc attempt))).1 with
    | some okr =>
      rw [hr] at h
      have h2 : Except.ok (ε := String) okr = Except.ok lr := h
      injection h2 with he
      subst he
      obtain ⟨hport, r, hmem, hok, hurl⟩ :=
        runTries_ok cwd (alloc attempt) (po attempt) (pf attempt)
          (triesFor isVite isNext (alloc attempt)) 0 okr hr
      refine ⟨_, List.mem_singleton.mpr rfl, hport.symm, r, hmem, hok, ?_⟩
      rw [hport]
      exact hurl
    | none =>
      rw [hr] at h
      obtain ⟨a, hmem, hp, hrest⟩ := ih (attempt + 1) lr h
      exact ⟨a, List.mem_cons_of_mem _ hmem, hp, hrest⟩

/-- Every strategy the launcher builds for a port sets `PORT` of the child
environment to that port. -/
theorem triesFor_envPORT :
    ∀ (v n : Bool) (p : Nat) (t : LaunchTry), t ∈ triesFor v n p →
      t.envPORT = some (toString p) := by
  intro v n p t ht
  cases v
  · cases n
    · simp [triesFor] at ht; subst ht; rfl
    · simp [triesFor] at ht; rcases ht with rfl | rfl <;> rfl
  · cases n
    · simp [triesFor] at ht; subst ht; rfl
    · simp [triesFor] at ht; rcases ht with rfl | rfl <;> rfl

/-- **C2** (counterexample).  The claim says the launcher captures the
child's stdout/stderr to a per-attempt log and re-targets the probe and
the returned port to any different port the child logged.  In the source,
`spawnDev` passes `stdio: "inherit"` — the child's output goes to the
parent console and no log exists — and `spawnDevServerWithRetry` has no
code path reading child output: at this concrete launch (Vite project,
requested port 5100, probe succeeds) the one spawn has `stdio` equal to
`"inherit"`, the probe targets the requested `http://127.0.0.1:5100`, and
the requested port 5100 is returned as the bound port, whatever port the
child in fact bound. -/
theorem c2_counterexample :
    (spawnDevServerWithRetry "temp/preview/abc" true false (fun _ => 5100)
        (fun _ _ => true) (fun _ _ => 901) 4).1 = Except.ok { pid := 901, port := 5100 }
    ∧ ((spawnDevServerWithRetry "temp/preview/abc" true false (fun _ => 5100)
        (fun _ _ => true) (fun _ _ => 901) 4).2.map
          (fun a => a.tries.map (fun r => (r.call.stdio, r.probeUrl)))) =
      [[("inherit", "http://127.0.0.1:5100")]] := by
  constructor <;> rfl

/-- **C2** (amended).  The launcher spawns every child with
`stdio: "inherit"` — output goes to the parent console; no per-attempt log
is captured — always probes `http://127.0.0.1:<allocated port>`, and on
success returns that allocated (requested) port unchanged; no bound port
is ever parsed from child output, the requested port being assumed to be
the bound port. -/
theorem c2_launcher_no_log_capture :
    ∀ (cwd : String) (isVite isNext : Bool) (alloc : Nat → Nat)
      (probeOracle : Nat → Nat → Bool) (pidOf : Nat → Nat → Nat) (maxRetry : Nat),
      (∀ a, a ∈ (spawnDevServerWithRetry cwd isVite isNext alloc probeOracle pidOf maxRetry).2 →
        ∀ r, r ∈ a.tries → r.call.stdio = "inherit" ∧ r.probeUrl = devUrl a.port)
      ∧ (∀ lr, (spawnDevServerWithRetry cwd isVite isNext alloc probeOracle pidOf maxRetry).1
            = Except.ok lr →
          (∃ k, k < maxRetry ∧ lr.port = alloc k)
          ∧ ∃ a, a ∈ (spawnDevServerWithRetry cwd isVite isNext alloc probeOracle pidOf maxRetry).2
              ∧ a.port = lr.port
              ∧ ∃ r, r ∈ a.tries ∧ r.probeOk = true ∧ r.probeUrl = devUrl lr.port) := by
  intro cwd isVite isNext alloc probeOracle pidOf maxRetry
  constructor
  · intro a ha r hr
    obtain ⟨_, _, hprops⟩ :=
      launchAttempts_records cwd isVite isNext alloc probeOracle pidOf maxRetry 0 a ha
    obtain ⟨_, hstdio, hurl, _⟩ := hprops r hr
    exact ⟨hstdio, hurl⟩
  · intro lr h
    obtain ⟨a, hmem, hp, hrest⟩ :=
      launchAttempts_ok cwd isVite isNext alloc probeOracle pidOf maxRetry 0 lr h
    obtain ⟨⟨k, _, hk2, hak⟩, _, _⟩ :=
      launchAttempts_records cwd isVite isNext alloc probeOracle pidOf maxRetry 0 a hmem
    exact ⟨⟨k, by omega, by rw [← hp, hak]⟩, a, hmem, hp, hrest⟩

/-- Witness for C2's amended theorem: a concrete launch (unknown
framework, port 5150, probe succeeds at once) whose only spawn call has
`stdio: "inherit"` and whose probe URL is the requested port's URL. -/
theorem c2_witness :
    ({ cwd := "tmp", args := ["run", "dev", "--", "--port", "5150"], envPORT := some "5150",
       stdio := "inherit" } : SpawnCall).stdio = "inherit"
    ∧ "http://127.0.0.1:5150" = devUrl 5150 := by
  have h := (c2_launcher_no_log_capture "tmp" false false (fun _ => 5150)
      (fun _ _ => true) (fun _ _ => 1) 1).1
      { port := 5150,
        tries := [{ call := { cwd := "tmp", args := ["run", "dev", "--", "--port", "5150"],
                              envPORT := some "5150", stdio := "inherit" },
                    pid := 1, probeUrl := "http://127.0.0.1:5150", probeOk := true,
                    killedAfter := false }] }
      (by decide)
      { call := { cwd := "tmp", args := ["run", "dev", "--", "--port", "5150"],
                  envPORT := some "5150", stdio := "inherit" },
        pid := 1, probeUrl := "http://127.0.0.1:5150", probeOk := true,
        killedAfter := false }
      (by decide)
  exact ⟨h.1, h.2⟩

/-- **C6** (counterexample).  The claim says each attempt pairs its one
allocated port with exactly the next single untried strategy, cycling
through the list.  For a Next project, one attempt spawns the SAME
allocated port against TWO strategies in sequence (`--port` then the
flag-free env-`PORT`-only variant): with every probe failing and one
attempt, the trace holds one attempt record for port 5100 with two spawn
calls, refuting the one-port-one-strategy pairing. -/
theorem c6_counterexample :
    ((spawnDevServerWithRetry "temp/preview/abc" false true (fun a => 5100 + a)
        (fun _ _ => false) (fun _ j => 900 + j) 1).2.map
      (fun a => (a.port, a.tries.map (fun r => r.call.args)))) =
    [(5100, [["run", "dev", "--", "--port", "5100"], ["run", "dev"]])] := by
  rfl

/-- **C6** (amended).  On each attempt, up to `maxRetry` attempts, the
launcher allocates exactly one new port and pairs it with the full ordered
strategy list for the detected framework — the same list every attempt,
one strategy for Vite and unknown frameworks, two for Next — spawning each
strategy with the project root as working directory and `PORT=<port>` in
its environment, probing `http://127.0.0.1:<port>`, and terminating the
child on probe failure before the next spawn. -/
theorem c6_attempt_structure :
    ∀ (cwd : String) (isVite isNext : Bool) (alloc : Nat → Nat)
      (probeOracle : Nat → Nat → Bool) (pidOf : Nat → Nat → Nat) (maxRetry : Nat),
      (spawnDevServerWithRetry cwd isVite isNext alloc probeOracle pidOf maxRetry).2.length
          ≤ maxRetry
      ∧ ∀ a, a ∈ (spawnDevServerWithRetry cwd isVite isNext alloc probeOracle pidOf maxRetry).2 →
          (∃ k, k < maxRetry ∧ a.port = alloc k)
          ∧ a.tries.map (fun r => r.call)
              = ((triesFor isVite isNext a.port).take a.tries.length).map
                  (fun t => spawnDev cwd t.args t.envPORT)
          ∧ ∀ r, r ∈ a.tries →
              r.call.cwd = cwd ∧ r.call.envPORT = some (toString a.port)
              ∧ r.probeUrl = devUrl a.port ∧ (r.probeOk = false → r.killedAfter = true) := by
  intro cwd isVite isNext alloc probeOracle pidOf maxRetry
  constructor
  · exact launchAttempts_length cwd isVite isNext alloc probeOracle pidOf maxRetry 0
  · intro a ha
    obtain ⟨⟨k, _, hk2, hak⟩, hcalls, hprops⟩ :=
      launchAttempts_records cwd isVite isNext alloc probeOracle pidOf maxRetry 0 a ha
    refine ⟨⟨k, by omega, hak⟩, hcalls, ?_⟩
    intro r hr
    obtain ⟨hcwd, _, hurl, hkill⟩ := hprops r hr
    refine ⟨hcwd, ?_, hurl, hkill⟩
    have hin : r.call ∈ a.tries.map (fun r => r.call) := List.mem_map_of_mem _ hr
    rw [hcalls] at hin
    obtain ⟨t, ht, hteq⟩ := List.mem_map.mp hin
    have htin : t ∈ triesFor isVite isNext a.port := List.take_subset _ _ ht
    rw [← hteq]
    exact triesFor_envPORT isVite isNext a.port t htin

/-- Witness for C6's amended theorem: the Next launch of the
counterexample performs at most one attempt, and its flag-free second
spawn runs in the project root with `PORT=5100` in its environment. -/
theorem c6_witness :
    (spawnDevServerWithRetry "tmp" false true (fun _ => 5100) (fun _ _ => false)
        (fun _ _ => 9) 1).2.length ≤ 1
    ∧ ({ cwd := "tmp", args := ["run", "dev"], envPORT := some "5100",
         stdio := "inherit" } : SpawnCall).cwd = "tmp"
    ∧ ({ cwd := "tmp", args := ["run", "dev"], envPORT := some "5100",
         stdio := "inherit" } : SpawnCall).envPORT = some (toString 5100) := by
  have h0 := (c6_attempt_structure "tmp" false true (fun _ => 5100) (fun _ _ => false)
      (fun _ _ => 9) 1).1
  have h := ((c6_attempt_structure "tmp" false true (fun _ => 5100) (fun _ _ => false)
      (fun _ _ => 9) 1).2
      { port := 5100,
        tries := [{ call := { cwd := "tmp", args := ["run", "dev", "--", "--port", "5100"],
                              envPORT := some "5100", stdio := "inherit" },
                    pid := 9, probeUrl := "http://127.0.0.1:5100", probeOk := false,
                    killedAfter := true },
                  { call := { cwd := "tmp", args := ["run", "dev"],
                              envPORT := some "5100", stdio := "inherit" },
                    pid := 9, probeUrl := "http://127.0.0.1:5100", probeOk := false,
                    killedAfter := true }] }
      (by decide)).2.2
      { call := { cwd := "tmp", args := ["run", "dev"],
                  envPORT := some "5100", stdio := "inherit" },
        pid := 9, probeUrl := "http://127.0.0.1:5100", probeOk := false,
        killedAfter := true }
      (by decide)
  exact ⟨h0, h.1, h.2.1⟩

end Mofix
